import Mathlib

/-!
Shallow embedding of the visitor-analytics pipeline of the `profile`
repository: the Visit Recorder (`logVisitorInfo`, with its user-agent
classification helpers `detectBrowser` / `detectOS` and its bounded insert
retry loop) and the Stats Aggregator (`calculateStats`, `getPercentChange`,
and the `fetchLogs` read path of `src/app/stats/page.tsx`).

Modelling conventions:
  * Instants are `Int` milliseconds since the epoch; JavaScript `Date`
    comparisons (`logDate >= today`) compare exactly these values.
  * JavaScript objects used as string-keyed counters are association lists
    `List (String × Nat)` in insertion order, with `getCount` playing the
    role of `m[k] || 0` and `setCount` of `m[k] = v`.
  * The asynchronous environment (fetch outcome, per-attempt insert
    outcome) is passed in explicitly; thrown JavaScript errors are
    `Except` values, and a `catch` block is a `match` on them.
-/

namespace Profile

/-- JavaScript `String.prototype.includes` step: does `pat` occur at the
head of `s`? (character-list model) -/
def leadsWith : List Char → List Char → Bool
  | _, [] => true
  | [], _ :: _ => false
  | c :: cs, p :: ps => c = p && leadsWith cs ps

/-- Does `pat` occur anywhere in `s`? (character-list model) -/
def occursIn : List Char → List Char → Bool
  | [], pat => leadsWith [] pat
  | c :: cs, pat => leadsWith (c :: cs) pat || occursIn cs pat

/-- JavaScript `s.includes(pat)` on strings. -/
def containsStr (s pat : String) : Bool :=
  occursIn s.toList pat.toList

/-- `detectBrowser` from the CV component: ordered substring matches over
the user-agent string, first match wins, `"Unknown"` otherwise. -/
def detectBrowser (userAgent : String) : String :=
  if containsStr userAgent "Firefox" then "Firefox"
  else if containsStr userAgent "Chrome" then "Chrome"
  else if containsStr userAgent "Safari" then "Safari"
  else if containsStr userAgent "Edge" then "Edge"
  else if containsStr userAgent "Opera" then "Opera"
  else "Unknown"

/-- `detectOS` from the CV component: ordered substring matches over the
user-agent string, first match wins, `"Unknown"` otherwise. -/
def detectOS (userAgent : String) : String :=
  if containsStr userAgent "Windows" then "Windows"
  else if containsStr userAgent "Mac" then "macOS"
  else if containsStr userAgent "Linux" then "Linux"
  else if containsStr userAgent "Android" then "Android"
  else if containsStr userAgent "iOS" then "iOS"
  else "Unknown"

/-- The `VisitorLog` record shape built by the Visit Recorder
(`interface VisitorLog` in the CV component): ip, ISO timestamp
(modelled as epoch milliseconds), os, browser. -/
structure VisitorLog where
  ip : String
  timestamp : Int
  os : String
  browser : String
deriving DecidableEq, Repr

/-- The Supabase insert retry loop of `logVisitorInfo`:
`let retries = 3; while (retries > 0) { try { insert; break } catch
{ retries--; ... } }`.  `attempt k` is the outcome of the `k`-th
(0-based) insert attempt supplied by the environment; the result is
(number of attempts actually made, `some n` if the `n`-th attempt
(1-based) succeeded, `none` if the loop exhausted its retries). -/
def runRetry (attempt : Nat → Bool) : Nat → Nat → Nat × Option Nat
  | 0, k => (k, none)
  | r + 1, k =>
    if attempt k then (k + 1, some (k + 1))
    else runRetry attempt r (k + 1)

/-- The retry loop as entered by `logVisitorInfo`: `retries` starts at 3,
no attempts made yet. -/
def logVisitorRetry (attempt : Nat → Bool) : Nat × Option Nat :=
  runRetry attempt 3 0

/-- Outcome of the ip lookup (`fetch('https://api.ipify.org?format=json')`
plus `ipResponse.json()`), as resolved by the environment. -/
inductive FetchOutcome where
  /-- the `AbortController` timeout fired: fetch rejects with `AbortError` -/
  | abortTimeout
  /-- fetch rejects with some other network error -/
  | networkError (msg : String)
  /-- `ipResponse.ok` is false: `throw new Error('Failed to fetch IP')` -/
  | httpNotOk
  /-- `ipResponse.json()` rejects -/
  | jsonError (msg : String)
  /-- the lookup resolved to an address -/
  | okIp (ip : String)
deriving DecidableEq, Repr

/-- Ambient environment of one `logVisitorInfo` invocation: the ip lookup
outcome, the browser user-agent string, and the outcome of each durable
insert attempt. -/
structure RecorderEnv where
  fetchOutcome : FetchOutcome
  userAgent : String
  insertOutcome : Nat → Bool

/-- Errors that can be thrown inside the outer `try` of `logVisitorInfo`. -/
inductive RecorderError where
  /-- an error whose `name` is `'AbortError'` -/
  | abortError
  /-- any other thrown error -/
  | other (msg : String)
deriving DecidableEq, Repr

/-- Body of the outer `try` block of `logVisitorInfo`: resolve the ip
(propagating thrown errors as `Except.error`), classify the user agent,
build the record, and run the insert retry loop (which absorbs its own
failures).  Returns (persisted?, attempts made, the record). -/
def recorderBody (env : RecorderEnv) (ts : Int) :
    Except RecorderError (Bool × Nat × VisitorLog) :=
  match env.fetchOutcome with
  | .abortTimeout => .error .abortError
  | .networkError m => .error (.other m)
  | .httpNotOk => .error (.other "Failed to fetch IP")
  | .jsonError m => .error (.other m)
  | .okIp ip =>
    let browser := detectBrowser env.userAgent
    let os := detectOS env.userAgent
    let visitorLog : VisitorLog := ⟨ip, ts, os, browser⟩
    let r := logVisitorRetry env.insertOutcome
    .ok ((r.2).isSome, r.1, visitorLog)

/-- Observable outcome of one `logVisitorInfo` call (what reaches the
console and state; nothing is ever re-thrown to the caller). -/
inductive RecorderOutcome where
  /-- the `if (isLoading) return` guard fired -/
  | skipped
  /-- `AbortError` caught: `console.log('Request timed out')` -/
  | timedOutLogged
  /-- any other error caught: `console.error('Failed to log visitor info:')` -/
  | errorLogged (msg : String)
  /-- the try block ran to completion (the record may or may not have been
  persisted, depending on the retry loop) -/
  | finished (persisted : Bool) (attempts : Nat) (record : VisitorLog)
deriving DecidableEq, Repr

/-- `logVisitorInfo`: the re-entrancy guard, the outer try/catch absorbing
every thrown error, and the `finally { setIsLoading(false) }`.  Returns
the observable outcome and the final value of the `isLoading` flag. -/
def logVisitorInfo (isLoading : Bool) (env : RecorderEnv) (ts : Int) :
    RecorderOutcome × Bool :=
  if isLoading then (.skipped, isLoading)
  else
    match recorderBody env ts with
    | .error .abortError => (.timedOutLogged, false)
    | .error (.other m) => (.errorLogged m, false)
    | .ok (p, a, rec) => (.finished p a rec, false)

namespace StatsPage

/-- The `VisitorLog` row shape read back by the stats page
(`interface VisitorLog` in `src/app/stats/page.tsx`): id, ip, ISO
timestamp (modelled as epoch milliseconds), os, browser, device type,
device model, time zone. -/
structure VisitorLogRow where
  id : Nat
  ip : String
  timestamp : Int
  os : String
  browser : String
  device_type : String
  device_model : String
  time_zone : String
deriving DecidableEq, Repr

/-- `m[k] || 0` on a JavaScript object used as a string-keyed counter. -/
def getCount : List (String × Nat) → String → Nat
  | [], _ => 0
  | (k', v) :: rest, k => if k' = k then v else getCount rest k

/-- `m[k] = v` on a JavaScript object: overwrite in place if the key is
present, append in insertion order otherwise. -/
def setCount : List (String × Nat) → String → Nat → List (String × Nat)
  | [], k, v => [(k, v)]
  | (k', v') :: rest, k, v =>
    if k' = k then (k, v) :: rest else (k', v') :: setCount rest k v

/-- `m[k] = (m[k] || 0) + 1`: one counter increment. -/
def incr (m : List (String × Nat)) (k : String) : List (String × Nat) :=
  setCount m k (getCount m k + 1)

/-- Total of all counters in a grouping. -/
def sumCounts (m : List (String × Nat)) : Nat :=
  (m.map Prod.snd).sum

/-- The aggregate structure returned by `calculateStats`
(`interface VisitorStats` in `src/app/stats/page.tsx`). -/
structure VisitorStats where
  totalVisits : Nat
  browsers : List (String × Nat)
  operatingSystems : List (String × Nat)
  deviceTypes : List (String × Nat)
  timeZones : List (String × Nat)
  recentVisits : List VisitorLogRow
  todayVisits : Nat
  lastWeekVisits : Nat
deriving DecidableEq, Repr

/-- Mutable accumulator state of the `logs.forEach` loop inside
`calculateStats`. -/
structure StatsAcc where
  browsers : List (String × Nat)
  operatingSystems : List (String × Nat)
  deviceTypes : List (String × Nat)
  timeZones : List (String × Nat)
  todayCount : Nat
  weekCount : Nat
deriving DecidableEq, Repr

/-- One iteration of the `logs.forEach` body of `calculateStats`:
increment the four grouping counters for the record's attributes, and the
`todayCount` / `weekCount` window counters when the record's timestamp is
on or after the respective boundary (`logDate >= today`,
`logDate >= weekAgo`: inclusive lower bounds on the millisecond value). -/
def statsStep (today weekAgo : Int) (acc : StatsAcc) (log : VisitorLogRow) :
    StatsAcc where
  browsers := incr acc.browsers log.browser
  operatingSystems := incr acc.operatingSystems log.os
  deviceTypes := incr acc.deviceTypes log.device_type
  timeZones := incr acc.timeZones log.time_zone
  todayCount := if today ≤ log.timestamp then acc.todayCount + 1 else acc.todayCount
  weekCount := if weekAgo ≤ log.timestamp then acc.weekCount + 1 else acc.weekCount

/-- `calculateStats` of `src/app/stats/page.tsx`: one pass over the log.
`today` is the value of `new Date(now.getFullYear(), now.getMonth(),
now.getDate())` — the local midnight of the observation instant, supplied
here as an explicit clock input.  The page computes `weekAgo` by
`weekAgo.setDate(weekAgo.getDate() - 7)`, i.e. the local midnight seven
calendar days earlier; with a fixed local utc offset this is exactly
`today - 7 * 24 * 60 * 60 * 1000` milliseconds, which is also literally
how the sibling variant of the page computes it
(`new Date(today.getTime() - 7 * 24 * 60 * 60 * 1000)`). -/
def calculateStats (logs : List VisitorLogRow) (today : Int) : VisitorStats :=
  let weekAgo : Int := today - 7 * 24 * 60 * 60 * 1000
  let acc := logs.foldl (statsStep today weekAgo) ⟨[], [], [], [], 0, 0⟩
  { totalVisits := logs.length
    browsers := acc.browsers
    operatingSystems := acc.operatingSystems
    deviceTypes := acc.deviceTypes
    timeZones := acc.timeZones
    recentVisits := logs.take 50
    todayVisits := acc.todayCount
    lastWeekVisits := acc.weekCount }

/-- `getPercentChange` of `src/app/stats/page.tsx`: 0 when the total is 0,
otherwise `(current / total * 100).toFixed(1)` — the share as a
percentage rounded to one decimal place (real-arithmetic model of the
floating-point computation, as a rational). -/
def getPercentChange (current total : Nat) : ℚ :=
  if total = 0 then 0
  else (round ((current : ℚ) / (total : ℚ) * 100 * 10) : ℤ) / 10

/-- Outcome of one `fetchLogs` bulk read, as resolved by the environment:
a successful select (Supabase hands back `data`, possibly null), a
non-null `error` object (logged, early return), or a thrown error
(caught and logged). -/
inductive FetchResult where
  | ok (data : Option (List VisitorLogRow))
  | dbError (msg : String)
  | exn (msg : String)

/-- State update performed by one `fetchLogs` call on the displayed stats:
on success `setStats(calculateStats(data || []))`; on a database error or
a thrown error the previous stats are left in place. -/
def fetchLogsUpdate (r : FetchResult) (today : Int) (prev : VisitorStats) :
    VisitorStats :=
  match r with
  | .ok data => calculateStats (data.getD []) today
  | .dbError _ => prev
  | .exn _ => prev

/-- Overwriting the counter for `k` with its looked-up value plus one
raises the total of all counters by exactly one. -/
lemma sumCounts_setCount_succ (m : List (String × Nat)) (k : String) :
    sumCounts (setCount m k (getCount m k + 1)) = sumCounts m + 1 := by
  induction m with
  | nil => simp [setCount, getCount, sumCounts]
  | cons p rest ih =>
    obtain ⟨k', v⟩ := p
    by_cases h : k' = k
    · subst h
      simp [setCount, getCount, sumCounts]
      omega
    · simp only [setCount, getCount, h, if_false, sumCounts, List.map_cons,
        List.sum_cons] at ih ⊢
      omega

/-- `incr` raises the total of all counters by exactly one. -/
lemma sumCounts_incr (m : List (String × Nat)) (k : String) :
    sumCounts (incr m k) = sumCounts m + 1 :=
  sumCounts_setCount_succ m k

/-- Characterisation of the `forEach` accumulation in `calculateStats`:
the window counters count exactly the records with timestamp on or after
the respective boundary, and each record adds exactly one to the total of
the browser counters and one to the total of the OS counters. -/
lemma foldl_statsStep_spec (today weekAgo : Int) (logs : List VisitorLogRow)
    (acc : StatsAcc) :
    (logs.foldl (statsStep today weekAgo) acc).todayCount
        = acc.todayCount + logs.countP (fun l => decide (today ≤ l.timestamp)) ∧
    (logs.foldl (statsStep today weekAgo) acc).weekCount
        = acc.weekCount + logs.countP (fun l => decide (weekAgo ≤ l.timestamp)) ∧
    sumCounts (logs.foldl (statsStep today weekAgo) acc).browsers
        = sumCounts acc.browsers + logs.length ∧
    sumCounts (logs.foldl (statsStep today weekAgo) acc).operatingSystems
        = sumCounts acc.operatingSystems + logs.length := by
  induction logs generalizing acc with
  | nil => simp
  | cons l ls ih =>
    have h := ih (statsStep today weekAgo acc l)
    simp only [List.foldl_cons, List.countP_cons, List.length_cons]
    refine ⟨?_, ?_, ?_, ?_⟩
    · rw [h.1]
      by_cases hc : today ≤ l.timestamp <;> simp [statsStep, hc] <;> omega
    · rw [h.2.1]
      by_cases hc : weekAgo ≤ l.timestamp <;> simp [statsStep, hc] <;> omega
    · rw [h.2.2.1]
      simp only [statsStep, sumCounts_incr]
      omega
    · rw [h.2.2.2]
      simp only [statsStep, sumCounts_incr]
      omega

end StatsPage

open StatsPage

/-- C3: every user-agent string containing the substring `"Firefox"` is
classified as browser `"Firefox"`, regardless of any other substrings
present, because the `Firefox` rule is the first match tried. -/
theorem detectBrowser_firefox (ua : String)
    (h : containsStr ua "Firefox" = true) :
    detectBrowser ua = "Firefox" := by
  simp [detectBrowser, h]

/-- Witness for C3 on a concrete user agent that also contains
`"Chrome"` and `"Safari"`. -/
theorem detectBrowser_firefox_witness :
    containsStr "Mozilla Firefox Chrome Safari" "Firefox" = true ∧
    detectBrowser "Mozilla Firefox Chrome Safari" = "Firefox" :=
  ⟨by decide, detectBrowser_firefox "Mozilla Firefox Chrome Safari" (by decide)⟩

/-- C4: for every user-agent string the browser classification lands in
the fixed vocabulary {Firefox, Chrome, Safari, Edge, Opera, Unknown} and
the OS classification lands in {Windows, macOS, Linux, Android, iOS,
Unknown}; classification never fails, it degrades to `"Unknown"`. -/
theorem detect_vocabulary (ua : String) :
    detectBrowser ua ∈ ["Firefox", "Chrome", "Safari", "Edge", "Opera", "Unknown"] ∧
    detectOS ua ∈ ["Windows", "macOS", "Linux", "Android", "iOS", "Unknown"] := by
  constructor
  · unfold detectBrowser
    split_ifs <;> simp
  · unfold detectOS
    split_ifs <;> simp

/-- C1 counterexample to the claim as stated: with the first three insert
attempts failing and a fourth attempt that would succeed, the retry loop
exits after 3 attempts without persisting anything — the record is NOT
persisted on a fourth attempt, because no fourth attempt is ever made
(`retries` starts at 3 and counts every attempt, not just re-attempts). -/
theorem logVisitorRetry_no_fourth_attempt :
    (logVisitorRetry (fun k => decide (3 ≤ k))).2 ≠ some 4 ∧
    logVisitorRetry (fun k => decide (3 ≤ k)) = (3, none) := by
  constructor
  · decide
  · decide

/-- C1 amended: the retry loop makes at most 3 insert attempts in total
(the bound counts the first attempt).  If the first two attempts fail and
the third succeeds, the record is persisted on the third attempt and no
fourth attempt is made; if three consecutive attempts fail, the loop
gives up after exactly 3 attempts and returns normally (does not throw). -/
theorem logVisitorRetry_bound (attempt : Nat → Bool) :
    (logVisitorRetry attempt).1 ≤ 3 ∧
    (attempt 0 = false → attempt 1 = false → attempt 2 = true →
      logVisitorRetry attempt = (3, some 3)) ∧
    (attempt 0 = false → attempt 1 = false → attempt 2 = false →
      logVisitorRetry attempt = (3, none)) := by
  cases h0 : attempt 0 <;> cases h1 : attempt 1 <;> cases h2 : attempt 2 <;>
    simp [logVisitorRetry, runRetry, h0, h1, h2]

/-- Witness for C1 amended: all attempts failing gives exactly 3 attempts
and no persistence. -/
theorem logVisitorRetry_bound_witness :
    logVisitorRetry (fun _ => false) = (3, none) :=
  (logVisitorRetry_bound (fun _ => false)).2.2 rfl rfl rfl

/-- C8: whatever the environment does (lookup timeout, network error,
non-ok response, JSON parse failure, or any pattern of insert failures),
`logVisitorInfo` returns an absorbed outcome — never a thrown error —
and the `isLoading` flag is reset to `false` on every path (the
`finally` block). -/
theorem logVisitorInfo_absorbs_errors (env : RecorderEnv) (ts : Int) :
    (logVisitorInfo false env ts).2 = false ∧
    (logVisitorInfo false env ts).1 ≠ RecorderOutcome.skipped := by
  obtain ⟨f, ua, ins⟩ := env
  cases f <;> simp [logVisitorInfo, recorderBody]

/-- C2: the empty log aggregates to all-zero counts and empty groupings,
and the percentage function returns 0 whenever the total is 0, without
dividing by zero. -/
theorem empty_log_aggregate (today : Int) (c : Nat) :
    calculateStats [] today =
      { totalVisits := 0, browsers := [], operatingSystems := [],
        deviceTypes := [], timeZones := [], recentVisits := [],
        todayVisits := 0, lastWeekVisits := 0 } ∧
    getPercentChange c 0 = 0 :=
  ⟨rfl, rfl⟩

/-- C6: one `fetchLogs` pass is an idempotent update of the displayed
stats — running it twice on the same snapshot with the same observation
instant leaves exactly what one run produces, because the aggregation is
a pure function of the snapshot and the clock (and a failed read keeps
the previous stats both times). -/
theorem fetchLogs_idempotent (r : FetchResult) (today : Int)
    (s : VisitorStats) :
    fetchLogsUpdate r today (fetchLogsUpdate r today s)
      = fetchLogsUpdate r today s := by
  cases r <;> rfl

/-- C7: a log holding exactly one record with os `"Linux"` and browser
`"Chrome"` aggregates to `browsers["Chrome"] = 1`,
`operatingSystems["Linux"] = 1`, `totalVisits = 1`, for every id, ip,
timestamp, device attributes and observation instant. -/
theorem single_record_aggregate (n : Nat) (ip : String) (T obs : Int)
    (dt dm tz : String) :
    getCount (calculateStats [⟨n, ip, T, "Linux", "Chrome", dt, dm, tz⟩] obs).browsers
        "Chrome" = 1 ∧
    getCount (calculateStats [⟨n, ip, T, "Linux", "Chrome", dt, dm, tz⟩] obs).operatingSystems
        "Linux" = 1 ∧
    (calculateStats [⟨n, ip, T, "Linux", "Chrome", dt, dm, tz⟩] obs).totalVisits = 1 :=
  ⟨rfl, rfl, rfl⟩

/-- C5: the aggregation counts a record toward `todayVisits` exactly when
its timestamp is ≥ the local midnight of the observation instant
(inclusive), and toward `lastWeekVisits` exactly when its timestamp is
≥ that midnight minus 7×24 hours (inclusive); in particular a log whose
records are all timestamped before midnight yields `todayVisits = 0`. -/
theorem today_week_boundary (logs : List VisitorLogRow) (today : Int) :
    (calculateStats logs today).todayVisits
        = logs.countP (fun l => decide (today ≤ l.timestamp)) ∧
    (calculateStats logs today).lastWeekVisits
        = logs.countP (fun l => decide (today - 7 * 24 * 60 * 60 * 1000 ≤ l.timestamp)) ∧
    ((∀ l ∈ logs, l.timestamp < today) →
      (calculateStats logs today).todayVisits = 0) := by
  have h := foldl_statsStep_spec today (today - 7 * 24 * 60 * 60 * 1000) logs
    ⟨[], [], [], [], 0, 0⟩
  refine ⟨?_, ?_, ?_⟩
  · simpa [calculateStats] using h.1
  · simpa [calculateStats] using h.2.1
  · intro hall
    have hz : logs.countP (fun l => decide (today ≤ l.timestamp)) = 0 := by
      rw [List.countP_eq_zero]
      intro l hl
      simpa using not_le.mpr (hall l hl)
    have h1 : (calculateStats logs today).todayVisits
        = logs.countP (fun l => decide (today ≤ l.timestamp)) := by
      simpa [calculateStats] using h.1
    rw [h1, hz]

/-- Witness for C5: a single record timestamped before midnight is not
counted as a today visit. -/
theorem today_week_boundary_witness :
    (calculateStats [⟨1, "127.0.0.1", 5, "Linux", "Chrome", "Desktop", "PC", "UTC"⟩]
        1000).todayVisits = 0 :=
  (today_week_boundary [⟨1, "127.0.0.1", 5, "Linux", "Chrome", "Desktop", "PC", "UTC"⟩]
      1000).2.2 (by decide)

/-- C9: every record counted as today's is also in the last-7-days
window, and every counted record is in the log, so
`todayVisits ≤ lastWeekVisits ≤ totalVisits` for every log and every
observation instant. -/
theorem visits_monotone (logs : List VisitorLogRow) (today : Int) :
    (calculateStats logs today).todayVisits
        ≤ (calculateStats logs today).lastWeekVisits ∧
    (calculateStats logs today).lastWeekVisits
        ≤ (calculateStats logs today).totalVisits := by
  have h := foldl_statsStep_spec today (today - 7 * 24 * 60 * 60 * 1000) logs
    ⟨[], [], [], [], 0, 0⟩
  have h1 : (calculateStats logs today).todayVisits
      = logs.countP (fun l => decide (today ≤ l.timestamp)) := by
    simpa [calculateStats] using h.1
  have h2 : (calculateStats logs today).lastWeekVisits
      = logs.countP (fun l => decide (today - 7 * 24 * 60 * 60 * 1000 ≤ l.timestamp)) := by
    simpa [calculateStats] using h.2.1
  have h3 : (calculateStats logs today).totalVisits = logs.length := rfl
  constructor
  · rw [h1, h2]
    apply List.countP_mono_left
    intro l _ hl
    simp only [decide_eq_true_eq] at hl ⊢
    omega
  · rw [h2, h3]
    exact List.countP_le_length _

/-- C10: the browser grouping counts sum to `totalVisits`, and so do the
OS grouping counts — each record increments exactly one counter in each
grouping. -/
theorem grouping_sums (logs : List VisitorLogRow) (today : Int) :
    sumCounts (calculateStats logs today).browsers
        = (calculateStats logs today).totalVisits ∧
    sumCounts (calculateStats logs today).operatingSystems
        = (calculateStats logs today).totalVisits := by
  have h := foldl_statsStep_spec today (today - 7 * 24 * 60 * 60 * 1000) logs
    ⟨[], [], [], [], 0, 0⟩
  constructor
  · simpa [calculateStats, sumCounts] using h.2.2.1
  · simpa [calculateStats, sumCounts] using h.2.2.2

end Profile
